import Mathlib

/-!
Verification of the part-number decoding and template-filling core of the
`templete_automation` repository against its natural-language specification.

The Python sources are shallowly embedded as Lean definitions:
* `decode_part_number`, `parameter_values`, `fill_template_with_part_data`,
  `process_multiple_parts` embed `rk73h_datasheet_generator.py`;
* `data_mapping`, `fill_specifications_from_part_numbers` embed
  `simple_part_filler.py`;
* `selLookupPart`, `get_selected_part_specs` embed `selective_processor.py`.

Strings are modelled by Lean `String` (a list of characters); the pandas
DataFrames holding reference data and templates are modelled by lists of
records whose cells are strings (spreadsheet I/O is a boundary concern,
excluded by the specification).  Python's `str.upper`/`str.lower` are
modelled on the ASCII letters, which covers every string the repository
manipulates.
-/

/-! ## Character and string helpers (ASCII fragment of Python semantics) -/

/-- ASCII whitespace, the character class of Python's `\s` and `str.split()`
on the strings this repository handles. -/
def isWs (c : Char) : Bool :=
  c == ' ' || c == '\t' || c == '\n' || c == '\r' || c == '\x0b' || c == '\x0c'

/-- ASCII uppercasing of a single character (Python `str.upper`). -/
def upChar (c : Char) : Char :=
  if 'a' ≤ c && c ≤ 'z' then Char.ofNat (c.toNat - 32) else c

/-- ASCII lowercasing of a single character (Python `str.lower`). -/
def lowChar (c : Char) : Char :=
  if 'A' ≤ c && c ≤ 'Z' then Char.ofNat (c.toNat + 32) else c

/-- Python `s.upper()` on ASCII strings. -/
def upperStr (s : String) : String := ⟨s.data.map upChar⟩

/-- Python `s.lower()` on ASCII strings. -/
def lowerStr (s : String) : String := ⟨s.data.map lowChar⟩

/-- Python slice `s[a:b]`. -/
def strSlice (s : String) (a b : Nat) : String := ⟨(s.data.drop a).take (b - a)⟩

/-- Python `s[0]` of a non-empty string, as a 1-character string. -/
def strTake1 (s : String) : String := ⟨s.data.take 1⟩

/-- Python `s.startswith(p)`. -/
def strStartsWith (s p : String) : Bool := p.data.isPrefixOf s.data

/-- Contiguous-substring test on character lists (for `in` / regex search of
a literal pattern). -/
def containsSub (pat : List Char) : List Char → Bool
  | [] => pat.isEmpty
  | c :: rest => pat.isPrefixOf (c :: rest) || containsSub pat rest

/-- Case-insensitive containment of `pat` in `s`: the semantics of
`Series.str.contains(pat, case=False)` for a pattern with no regex
metacharacters, as used in `selective_processor.py`. -/
def containsCI (s pat : String) : Bool :=
  containsSub (lowerStr pat).data (lowerStr s).data

/-- Accumulator-style splitting of a character list on whitespace runs,
dropping empty tokens: Python `str.split()` with no argument. -/
def splitWsChars : List Char → List Char → List (List Char)
  | [], acc => if acc.isEmpty then [] else [acc.reverse]
  | c :: rest, acc =>
    if isWs c then
      if acc.isEmpty then splitWsChars rest [] else acc.reverse :: splitWsChars rest []
    else splitWsChars rest (c :: acc)

/-- Python `s.split()` (split on whitespace runs, no empty tokens). -/
def splitWs (s : String) : List String := (splitWsChars s.data []).map (fun l => ⟨l⟩)

/-! ## `decode_part_number` (rk73h_datasheet_generator.py, lines 115-145) -/

/-- The segment record built by `decode_part_number`: it is pre-initialized
with `series = "RK73H"` and empty strings for every other segment. -/
structure DecodedPart where
  series : String
  size_code : String
  resistance_code : String
  tolerance_code : String
  termination_code : String
  packaging_code : String
deriving DecidableEq, Repr

/-- `re.sub(r'\s+', '', part_number.upper())`: uppercase, then delete every
whitespace character. -/
def cleanPart (s : String) : String :=
  ⟨(upperStr s).data.filter (fun c => !(isWs c))⟩

/-- Embedding of `decode_part_number`.  Note that the split happens on
`clean_part`, the string from which all whitespace was already removed, and
that the size code is taken only when the cleaned string is longer than 7
characters (`len(clean_part) > 7`). -/
def decode_part_number (part_number : String) : DecodedPart :=
  let base : DecodedPart := ⟨"RK73H", "", "", "", "", ""⟩
  let clean := cleanPart part_number
  if strStartsWith clean "RK73H" then
    let d1 := if clean.data.length > 7 then { base with size_code := strSlice clean 5 7 } else base
    let parts := splitWs clean
    if 4 ≤ parts.length then
      { d1 with
        resistance_code := if 2 < parts.length then parts.getD 2 "" else "",
        tolerance_code := if 3 < parts.length then strTake1 (parts.getD 3 "") else "" }
    else d1
  else base

/-! ## Static data of `RK73HDataProvider.load_extracted_data` -/

/-- The sample resistance-code table of the data provider
(`extracted_specs['resistance_codes']`). -/
def resistance_codes : List (String × String) :=
  [("1001", "1kΩ"), ("1002", "10kΩ"), ("1003", "100kΩ"),
   ("4731", "4.73kΩ"), ("1000", "100Ω"), ("1500", "150Ω")]

/-- `extracted_data['resistance_codes'].get(code, 'See datasheet')`:
the total resistance resolution used by `fill_template_with_part_data`. -/
def resistanceLookup (code : String) : String :=
  (resistance_codes.lookup code).getD "See datasheet"

/-- The `size_mapping` table of `fill_template_with_part_data`
(size code ↦ (EIA package code, power rating)). -/
def size_mapping : List (String × (String × String)) :=
  [("1E", ("0402", "0.063W")), ("1J", ("0603", "0.1W")),
   ("2A", ("0805", "0.125W")), ("2B", ("1206", "0.25W")),
   ("2F", ("1210", "0.5W")), ("3A", ("1812", "0.75W")),
   ("3B", ("2010", "0.75W")), ("3C", ("2512", "1W"))]

/-! ## Template model and `fill_template_with_part_data` -/

/-- One row of the spreadsheet template: (parameter, unit, value). -/
structure TemplateRow where
  parameter : String
  unit : String
  value : String
deriving DecidableEq, Repr

/-- The 14-row default template of `create_default_template` (values empty). -/
def default_template : List TemplateRow :=
  [⟨"Specifications", "", ""⟩,
   ⟨"Resistance", "[Ohm]", ""⟩,
   ⟨"Maximum Working Voltage", "[V dc]", ""⟩,
   ⟨"Tolerance", "[± %]", ""⟩,
   ⟨"Operating Temperature", "[℃]", ""⟩,
   ⟨"Package Size", "[EIA]", ""⟩,
   ⟨"Rated Power per Element", "[W]", ""⟩,
   ⟨"Temperature Coefficient", "[± ppm/K]", ""⟩,
   ⟨"Lead Finish", "", ""⟩,
   ⟨"Technology", "", ""⟩,
   ⟨"Series", "", ""⟩,
   ⟨"Automotive Qualified", "", ""⟩,
   ⟨"Environmental Compliance", "", ""⟩,
   ⟨"Packaging Type", "", ""⟩]

/-- The `parameter_values` dictionary built inside
`fill_template_with_part_data`, in its literal key order.  The constant
entries come from `load_extracted_data` and the hardcoded defaults. -/
def parameter_values (part_number : String) : List (String × String) :=
  let decoded := decode_part_number part_number
  let pp := (size_mapping.lookup decoded.size_code).getD ("", "")
  let resistance_value := resistanceLookup decoded.resistance_code
  [("Specifications", part_number),
   ("Resistance", resistance_value),
   ("Maximum Working Voltage", "50V"),
   ("Tolerance", "±1%"),
   ("Operating Temperature", "-55°C to +155°C"),
   ("Package Size", pp.1),
   ("Rated Power per Element", pp.2),
   ("Temperature Coefficient", "±200 ppm/°C"),
   ("Lead Finish", "Cu/Ni/Sn"),
   ("Technology", "Thick Film"),
   ("Series", "RK73H"),
   ("Automotive Qualified", "AEC-Q200"),
   ("Environmental Compliance", "Halogen-Free"),
   ("Packaging Type", "Tape & Reel")]

/-- Embedding of `fill_template_with_part_data`: each template row whose
parameter appears in `parameter_values` gets that value written into its
`value` cell; other rows are kept unchanged. -/
def fill_template_with_part_data (part_number : String) (tmpl : List TemplateRow) :
    List TemplateRow :=
  tmpl.map fun r =>
    match (parameter_values part_number).lookup r.parameter with
    | some v => { r with value := v }
    | none => r

/-! ## Batch processing: `process_multiple_parts` -/

/-- A row of the batch result, carrying the inserted `Part_Number` column. -/
structure BatchRow where
  part_number : String
  parameter : String
  unit : String
  value : String
deriving DecidableEq, Repr

/-- Tag a filled template with its source part number
(`filled_template.insert(0, 'Part_Number', part_number)`). -/
def tagRows (part : String) (rows : List TemplateRow) : List BatchRow :=
  rows.map fun r => ⟨part, r.parameter, r.unit, r.value⟩

/-- The one-row separator appended between parts in `process_multiple_parts`. -/
def batchSeparator : BatchRow := ⟨"", "--- Next Part ---", "", ""⟩

/-- Recursion of `process_multiple_parts`: the boolean says whether a
previous result exists (in which case a separator row precedes the part). -/
def processBatchAux (tmpl : List TemplateRow) : List String → Bool → List BatchRow
  | [], _ => []
  | p :: rest, sep =>
    (if sep then [batchSeparator] else []) ++
      tagRows p (fill_template_with_part_data p tmpl) ++
      processBatchAux tmpl rest true

/-- Embedding of `process_multiple_parts`: every part number is filled (no
part is ever skipped), with one separator row between consecutive parts. -/
def process_multiple_parts (parts : List String) (tmpl : List TemplateRow) : List BatchRow :=
  processBatchAux tmpl parts false

/-! ## `simple_part_filler.py` -/

/-- A row of the reference data file (`RK73H_Full_Data.xlsx`): a part-number
key plus the named columns of that row, as strings. -/
structure FullDataRow where
  partNumber : String
  fields : List (String × String)
deriving DecidableEq, Repr

/-- `row.get(col, default)` on a reference row. -/
def fieldGetD (row : FullDataRow) (col dflt : String) : String :=
  (row.fields.lookup col).getD dflt

/-- Exact-equality lookup `full_data[full_data['Part Number'] == part]`
followed by `.iloc[0]`, as `simple_part_filler.py` does (no fuzzy fallback
there). -/
def exactRow (data : List FullDataRow) (part : String) : Option FullDataRow :=
  (data.filter (fun r => r.partNumber == part)).head?

/-- The `data_mapping` dictionary of `fill_specifications_from_part_numbers`,
in its literal key order. -/
def data_mapping (part_number : String) (row : FullDataRow) : List (String × String) :=
  [("Specifications", part_number),
   ("Resistance", fieldGetD row "Resistance" ""),
   ("Maximum Working Voltage", fieldGetD row "Max Working Voltage (V)" ""),
   ("Tolerance", fieldGetD row "Tolerance (%)" ""),
   ("Operating Temperature", "-55°C to +155°C"),
   ("Package Size", fieldGetD row "EIA Code" ""),
   ("Rated Power per Element", fieldGetD row "Power Rating (W)" ""),
   ("Temperature Coefficient", fieldGetD row "T.C.R. (ppm/°C)" ""),
   ("Lead Finish", fieldGetD row "Termination Material" ""),
   ("Technology", "Thick Film")]

/-- Filling one template copy from a found reference row
(the inner loop of `fill_specifications_from_part_numbers`). -/
def fillSimple (part : String) (row : FullDataRow) (tmpl : List TemplateRow) :
    List TemplateRow :=
  tmpl.map fun r =>
    match (data_mapping part row).lookup r.parameter with
    | some v => { r with value := v }
    | none => r

/-- The separator block of `simple_part_filler.py`: a THREE-row DataFrame
(blank row, `--- Next Part ---` row, blank row). -/
def simpleSeparator : List TemplateRow :=
  [⟨"", "", ""⟩, ⟨"--- Next Part ---", "", ""⟩, ⟨"", "", ""⟩]

/-- Recursion of `fill_specifications_from_part_numbers`: parts with no
exact reference row are skipped (`continue`); the boolean records whether a
previous part produced output (separator inserted before the next one). -/
def fillSpecsAux (data : List FullDataRow) (tmpl : List TemplateRow) :
    List String → Bool → List TemplateRow
  | [], _ => []
  | p :: rest, sep =>
    match exactRow data p with
    | none => fillSpecsAux data tmpl rest sep
    | some row =>
      (if sep then simpleSeparator else []) ++ fillSimple p row tmpl ++
        fillSpecsAux data tmpl rest true

/-- Embedding of `fill_specifications_from_part_numbers` (the concatenated
output rows it writes to `filled_specifications.xlsx`). -/
def fill_specifications_from_part_numbers (parts : List String)
    (data : List FullDataRow) (tmpl : List TemplateRow) : List TemplateRow :=
  fillSpecsAux data tmpl parts false

/-- Number of input part numbers that have an exact reference row. -/
def countFound (data : List FullDataRow) (parts : List String) : Nat :=
  parts.countP (fun p => (exactRow data p).isSome)

/-! ## `selective_processor.py` -/

/-- The exact-match candidate rows `full_data[full_data['Part Number'] == part]`. -/
def exactMatches (data : List FullDataRow) (part : String) : List FullDataRow :=
  data.filter (fun r => r.partNumber == part)

/-- The fallback candidate rows
`full_data[full_data['Part Number'].str.contains(part, case=False, na=False)]`. -/
def substringMatches (data : List FullDataRow) (part : String) : List FullDataRow :=
  data.filter (fun r => containsCI r.partNumber part)

/-- The lookup of `get_selected_part_specs`: exact equality first; only when
no exact row exists, case-insensitive containment; `.iloc[0]` selects the
first candidate in table order in either case. -/
def selLookupPart (data : List FullDataRow) (part : String) : Option FullDataRow :=
  match exactMatches data part with
  | r :: _ => some r
  | [] =>
    match substringMatches data part with
    | r :: _ => some r
    | [] => none

/-- The `REQUIRED_PARAMETERS` mapping of `selective_processor.py`. -/
def required_parameters : List (String × String) :=
  [("Resistance", "Resistance"),
   ("Maximum Working Voltage", "Max Working Voltage (V)"),
   ("Tolerance", "Tolerance (%)"),
   ("Package Size", "EIA Code"),
   ("Rated Power per Element", "Power Rating (W)")]

/-- A row of the selective output, carrying the inserted `Part Number` column. -/
structure SelRow where
  part : String
  parameter : String
  unit : String
  value : String
deriving DecidableEq, Repr

/-- Filling one template copy from the selected reference row, restricted to
the required parameters, and tagging each row with the part number. -/
def fillSelected (part : String) (row : FullDataRow) (tmpl : List TemplateRow) :
    List SelRow :=
  tmpl.map fun tr =>
    match required_parameters.lookup tr.parameter with
    | some col => ⟨part, tr.parameter, tr.unit, fieldGetD row col ""⟩
    | none => ⟨part, tr.parameter, tr.unit, tr.value⟩

/-- Embedding of `get_selected_part_specs`: parts with no match at all are
skipped with a printed message (`continue`); everything else is filled from
the first matching row and concatenated. -/
def get_selected_part_specs : List String → List TemplateRow → List FullDataRow → List SelRow
  | [], _, _ => []
  | p :: rest, tmpl, data =>
    match selLookupPart data p with
    | none => get_selected_part_specs rest tmpl data
    | some row => fillSelected p row tmpl ++ get_selected_part_specs rest tmpl data

/-! ## Specification-side definitions (for refinement comparisons only)

These definitions follow the WORDS of the specification (§4.2,
ResistanceCodeDecoder), not the source; they exist to be compared against
the source-derived definitions above. -/

/-- Digit value of an ASCII digit character. -/
def digitVal (c : Char) : Nat := c.toNat - '0'.toNat

/-- Numeric value of a digit string, most significant first. -/
def digitsToNat (l : List Char) : Nat := l.foldl (fun acc c => acc * 10 + digitVal c) 0

/-- Spec §4.2 rule for a resistance code WITHOUT "R": the last character is
the power-of-ten multiplier and the preceding characters the significant
digits; `none` if any character is not a digit. -/
def eiaOhms_spec (code : String) : Option Nat :=
  if code.data.all Char.isDigit then
    match code.data.reverse with
    | [] => none
    | m :: restRev => some (digitsToNat restRev.reverse * 10 ^ digitVal m)
  else none

/-- Left-pad the decimal representation of `n` to `width` digits. -/
def padLeftZeros (width n : Nat) : List Char :=
  let s := (Nat.repr n).data
  List.replicate (width - s.length) '0' ++ s

/-- Drop trailing `'0'` characters (for fractional display). -/
def stripTrailZeros (l : List Char) : List Char :=
  (l.reverse.dropWhile (fun c => c == '0')).reverse

/-- Render `n` ohms scaled by `d` with `width` fractional digits and unit `u`. -/
def fmtWithUnit (n d width : Nat) (u : String) : String :=
  let ip := n / d
  let fr := n % d
  if fr = 0 then Nat.repr ip ++ u
  else Nat.repr ip ++ "." ++ String.mk (stripTrailZeros (padLeftZeros width fr)) ++ u

/-- Spec §4.2 display rule: choose Ω, kΩ or MΩ by magnitude. -/
def fmtOhms_spec (n : Nat) : String :=
  if n < 1000 then Nat.repr n ++ "Ω"
  else if n < 1000000 then fmtWithUnit n 1000 3 "kΩ"
  else fmtWithUnit n 1000000 6 "MΩ"

/-- Spec §4.2 validity test: `InvalidResistanceCode` exactly when the length
is outside [3,4] or some character other than a single permitted "R" is
non-numeric. -/
def invalidResistanceCode_spec (code : String) : Bool :=
  let len := code.data.length
  !(3 ≤ len && len ≤ 4) ||
    !(code.data.all (fun c => c.isDigit || c == 'R')) ||
    (code.data.count 'R') > 1

/-- The fixed canonical attribute set of `fill_template_with_part_data`:
the key set of its `parameter_values` dictionary, in order. -/
def canonicalAttributeNames : List String :=
  ["Specifications", "Resistance", "Maximum Working Voltage", "Tolerance",
   "Operating Temperature", "Package Size", "Rated Power per Element",
   "Temperature Coefficient", "Lead Finish", "Technology", "Series",
   "Automotive Qualified", "Environmental Compliance", "Packaging Type"]

/-- The fixed attribute set of `fill_specifications_from_part_numbers`:
the key set of its `data_mapping` dictionary, in order. -/
def simpleAttributeNames : List String :=
  ["Specifications", "Resistance", "Maximum Working Voltage", "Tolerance",
   "Operating Temperature", "Package Size", "Rated Power per Element",
   "Temperature Coefficient", "Lead Finish", "Technology"]

/-! ## Helper lemmas -/

theorem splitWsChars_len_le_one :
    ∀ (l : List Char), (∀ c ∈ l, isWs c = false) →
      ∀ acc, (splitWsChars l acc).length ≤ 1 := by
  intro l
  induction l with
  | nil =>
    intro _ acc
    unfold splitWsChars
    split <;> simp
  | cons c rest ih =>
    intro h acc
    have hc : isWs c = false := h c (by simp)
    have hr : ∀ x ∈ rest, isWs x = false := fun x hx => h x (by simp [hx])
    unfold splitWsChars
    rw [hc]
    simpa using ih hr (c :: acc)

theorem splitWs_cleanPart_le_one (s : String) : (splitWs (cleanPart s)).length ≤ 1 := by
  have hnw : ∀ c ∈ (cleanPart s).data, isWs c = false := by
    intro c hc
    simp only [cleanPart] at hc
    have h2 := (List.mem_filter.mp hc).2
    simpa using h2
  have h := splitWsChars_len_le_one (cleanPart s).data hnw []
  simpa [splitWs] using h

theorem decode_part_number_series_eq (s : String) :
    (decode_part_number s).series = "RK73H" := by
  unfold decode_part_number
  dsimp only
  split
  · split
    · split <;> rfl
    · split <;> rfl
  · rfl

theorem decode_part_number_resistance_eq (s : String) :
    (decode_part_number s).resistance_code = "" := by
  have h1 := splitWs_cleanPart_le_one s
  unfold decode_part_number
  dsimp only
  split
  · split
    · exfalso; omega
    · split <;> rfl
  · rfl

theorem decode_part_number_tolerance_eq (s : String) :
    (decode_part_number s).tolerance_code = "" := by
  have h1 := splitWs_cleanPart_le_one s
  unfold decode_part_number
  dsimp only
  split
  · split
    · exfalso; omega
    · split <;> rfl
  · rfl

theorem decode_part_number_termination_eq (s : String) :
    (decode_part_number s).termination_code = "" := by
  unfold decode_part_number
  dsimp only
  split
  · split
    · split <;> rfl
    · split <;> rfl
  · rfl

theorem decode_part_number_packaging_eq (s : String) :
    (decode_part_number s).packaging_code = "" := by
  unfold decode_part_number
  dsimp only
  split
  · split
    · split <;> rfl
    · split <;> rfl
  · rfl

theorem lookup_isSome_of_mem_keys {β : Type} :
    ∀ (l : List (String × β)) (k : String),
      k ∈ l.map Prod.fst → (l.lookup k).isSome = true := by
  intro l
  induction l with
  | nil => intro k h; simp at h
  | cons p t ih =>
    intro k h
    obtain ⟨k1, v1⟩ := p
    by_cases hk : k = k1
    · subst hk
      simp [List.lookup]
    · have hmem : k ∈ t.map Prod.fst := by
        simp only [List.map_cons, List.mem_cons] at h
        rcases h with h | h
        · exact absurd h hk
        · exact h
      have hbeq : (k == k1) = false := by simp [hk]
      simpa [List.lookup, hbeq] using ih k hmem

theorem lookup_eq_none_of_keys_ne {β : Type} :
    ∀ (l : List (String × β)) (k : String),
      (∀ p ∈ l, p.1 ≠ k) → l.lookup k = none := by
  intro l
  induction l with
  | nil => intro k _; rfl
  | cons p t ih =>
    intro k h
    obtain ⟨k1, v1⟩ := p
    have h1 : k1 ≠ k := h (k1, v1) (by simp)
    have hbeq : (k == k1) = false := by simp [Ne.symm h1]
    simpa [List.lookup, hbeq] using ih k (fun q hq => h q (by simp [hq]))

theorem fill_template_with_part_data_length (p : String) (tmpl : List TemplateRow) :
    (fill_template_with_part_data p tmpl).length = tmpl.length := by
  simp [fill_template_with_part_data]

theorem processBatchAux_true_length (tmpl : List TemplateRow) :
    ∀ parts : List String,
      (processBatchAux tmpl parts true).length = parts.length * (tmpl.length + 1) := by
  intro parts
  induction parts with
  | nil => simp [processBatchAux]
  | cons p rest ih =>
    simp only [processBatchAux, if_true, List.length_append, List.length_cons,
      List.length_nil, ih]
    simp [tagRows, fill_template_with_part_data]
    ring

theorem fillSimple_length (p : String) (row : FullDataRow) (tmpl : List TemplateRow) :
    (fillSimple p row tmpl).length = tmpl.length := by
  simp [fillSimple]

theorem fillSpecsAux_length (data : List FullDataRow) (tmpl : List TemplateRow) :
    ∀ (parts : List String) (sep : Bool),
      (fillSpecsAux data tmpl parts sep).length =
        if countFound data parts = 0 then 0
        else countFound data parts * tmpl.length +
          3 * (countFound data parts - 1) + (if sep then 3 else 0) := by
  intro parts
  induction parts with
  | nil => intro sep; simp [fillSpecsAux, countFound]
  | cons p rest ih =>
    intro sep
    cases hrow : exactRow data p with
    | none =>
      have hc : countFound data (p :: rest) = countFound data rest := by
        simp [countFound, List.countP_cons, hrow]
      simp only [fillSpecsAux, hrow, hc]
      exact ih sep
    | some row =>
      have hc : countFound data (p :: rest) = countFound data rest + 1 := by
        simp [countFound, List.countP_cons, hrow]
      have hsep : (if sep then simpleSeparator else []).length = if sep then 3 else 0 := by
        cases sep <;> rfl
      simp only [fillSpecsAux, hrow, hc, List.length_append, ih true,
        fillSimple_length, hsep]
      cases hM : countFound data rest with
      | zero =>
        cases sep <;> simp <;> omega
      | succ m =>
        have hm1 : m + 1 ≠ 0 := Nat.succ_ne_zero m
        have hm2 : m + 1 + 1 ≠ 0 := Nat.succ_ne_zero (m + 1)
        simp only [hm1, hm2, if_false, Nat.add_sub_cancel]
        cases sep <;> simp <;> ring

/-! ## Claims -/

/-- C1 (code_bug): at the claim's own example input "RK73H2B TD 1003 FT",
the end-to-end pipeline yields PackageSize "1206" and PowerRating "0.25W"
as claimed, but the Resistance row receives the dictionary-miss fallback
"See datasheet" instead of "100kΩ" — even though the provider's
resistance-code table does map "1003" to "100kΩ".  The cause is that
`decode_part_number` removes ALL whitespace from the part number before
splitting it on whitespace, so the resistance code is never extracted and
the sample table is dead code; the code's own examples and table show the
claimed behaviour is the intent.  This theorem evaluates the code at the
failing input. -/
theorem C1_pipeline_failing_input :
    ((fill_template_with_part_data "RK73H2B TD 1003 FT" default_template).filter
        (fun r => r.parameter == "Package Size") =
      [⟨"Package Size", "[EIA]", "1206"⟩]) ∧
    ((fill_template_with_part_data "RK73H2B TD 1003 FT" default_template).filter
        (fun r => r.parameter == "Rated Power per Element") =
      [⟨"Rated Power per Element", "[W]", "0.25W"⟩]) ∧
    ((fill_template_with_part_data "RK73H2B TD 1003 FT" default_template).filter
        (fun r => r.parameter == "Resistance") =
      [⟨"Resistance", "[Ohm]", "See datasheet"⟩]) ∧
    resistance_codes.lookup "1003" = some "100kΩ" := by decide

/-- C2 (counterexample): the claim says the 3-digit code "103" decodes to
10 × 10³ Ω = "10kΩ".  The code has no algorithmic decoder: resistance
resolution is a lookup in the six-entry sample table, whose keys are all
4 characters, so "103" resolves to the fallback "See datasheet" — which is
exactly the value the specification-side EIA rule does NOT produce. -/
theorem C2_counterexample :
    resistanceLookup "103" = "See datasheet" ∧
    ((resistanceLookup "103" == "10kΩ") = false) ∧
    (eiaOhms_spec "103").map fmtOhms_spec = some "10kΩ" := by decide

/-- C2 (amended): the code resolves resistance codes only by lookup in the
fixed six-entry sample table.  Every entry of that table does satisfy the
EIA rule — value = significantDigits × 10^lastDigit ohms, rendered with the
magnitude-appropriate unit prefix — but all its keys have 4 characters, and
every code outside the table (in particular every 3-character code)
resolves to "See datasheet". -/
theorem C2_table_eia_rule :
    (resistance_codes.all
      (fun p => ((eiaOhms_spec p.1).map fmtOhms_spec) == some p.2)) = true ∧
    (resistance_codes.all (fun p => p.1.data.length == 4)) = true ∧
    (∀ code : String, code.data.length = 3 → resistanceLookup code = "See datasheet") := by
  refine ⟨by decide, by decide, ?_⟩
  intro code h
  have hnone : resistance_codes.lookup code = none := by
    apply lookup_eq_none_of_keys_ne
    intro p hp e
    have h3 : p.1.data.length = 3 := by rw [e]; exact h
    simp only [resistance_codes, List.mem_cons, List.not_mem_nil, or_false] at hp
    rcases hp with rfl | rfl | rfl | rfl | rfl | rfl <;> exact absurd h3 (by decide)
  simp [resistanceLookup, hnone]

/-- Witness for C2: the amended theorem applied at the 3-character code "103". -/
theorem C2_table_eia_rule_witness :
    ("103" : String).data.length = 3 ∧ resistanceLookup "103" = "See datasheet" :=
  ⟨by decide, C2_table_eia_rule.2.2 "103" (by decide)⟩

/-- C3 (counterexample): a reference table with two rows that both contain
"rk73h" case-insensitively and neither exactly.  The substring match yields
2 candidates, the first row in table order is selected — but the ENTIRE
observable output of `get_selected_part_specs` on the two-row table equals
its output on the table containing only the first candidate: the ambiguous
run is indistinguishable from an unambiguous one, so no `AmbiguousMatch`
flag or side-channel warning list exists anywhere, refuting that conjunct
of the claim. -/
theorem C3_counterexample :
    (substringMatches [⟨"AB RK73H", [("Resistance", "1Ω")]⟩,
        ⟨"CD RK73H", [("Resistance", "2Ω")]⟩] "rk73h").length = 2 ∧
    exactMatches [⟨"AB RK73H", [("Resistance", "1Ω")]⟩,
        ⟨"CD RK73H", [("Resistance", "2Ω")]⟩] "rk73h" = [] ∧
    selLookupPart [⟨"AB RK73H", [("Resistance", "1Ω")]⟩,
        ⟨"CD RK73H", [("Resistance", "2Ω")]⟩] "rk73h" =
      some ⟨"AB RK73H", [("Resistance", "1Ω")]⟩ ∧
    get_selected_part_specs ["rk73h"] default_template
        [⟨"AB RK73H", [("Resistance", "1Ω")]⟩, ⟨"CD RK73H", [("Resistance", "2Ω")]⟩] =
      get_selected_part_specs ["rk73h"] default_template
        [⟨"AB RK73H", [("Resistance", "1Ω")]⟩] := by decide

/-- C3 (amended): the lookup tries exact string equality first; only when
no exact row exists does it fall back to case-insensitive substring
containment; with several candidates the first row in table order is
selected and the batch simply continues — but no `AmbiguousMatch` warning
is recorded (see the counterexample); a part with no match at all is
skipped and the batch continues with the remaining parts. -/
theorem C3_lookup_policy :
    (∀ (data : List FullDataRow) (part : String) (r : FullDataRow) (rs : List FullDataRow),
        exactMatches data part = r :: rs → selLookupPart data part = some r) ∧
    (∀ (data : List FullDataRow) (part : String) (r : FullDataRow) (rs : List FullDataRow),
        exactMatches data part = [] → substringMatches data part = r :: rs →
          selLookupPart data part = some r) ∧
    (∀ (data : List FullDataRow) (tmpl : List TemplateRow) (p : String) (rest : List String),
        selLookupPart data p = none →
          get_selected_part_specs (p :: rest) tmpl data =
            get_selected_part_specs rest tmpl data) := by
  refine ⟨?_, ?_, ?_⟩
  · intro data part r rs h
    simp [selLookupPart, h]
  · intro data part r rs h1 h2
    simp [selLookupPart, h1, h2]
  · intro data tmpl p rest h
    simp [get_selected_part_specs, h]

/-- Witness for C3: the amended policy applied at concrete tables — an
exact match, a case-insensitive substring fallback, and a no-match skip. -/
theorem C3_lookup_policy_witness :
    selLookupPart [⟨"A1", []⟩] "A1" = some ⟨"A1", []⟩ ∧
    selLookupPart [⟨"xA2", []⟩] "a2" = some ⟨"xA2", []⟩ ∧
    get_selected_part_specs ["zz"] [] [] = get_selected_part_specs [] [] [] :=
  ⟨C3_lookup_policy.1 [⟨"A1", []⟩] "A1" ⟨"A1", []⟩ [] (by decide),
   C3_lookup_policy.2.1 [⟨"xA2", []⟩] "a2" ⟨"xA2", []⟩ [] (by decide) (by decide),
   C3_lookup_policy.2.2 [] [] "zz" [] (by decide)⟩

/-- C4 (confirmed): for every input part number, both reconciliation
dictionaries carry exactly their fixed attribute key set — 14 keys in
`parameter_values` of the datasheet generator, 10 keys in `data_mapping`
of the simple filler — and looking up any of those keys always succeeds
with a string value (values are strings by construction; missing data
surfaces as fallback strings such as "" or "See datasheet", never as an
absent key). -/
theorem C4_all_keys_present :
    (∀ part_number : String,
        (parameter_values part_number).map Prod.fst = canonicalAttributeNames) ∧
    (∀ (part_number k : String), k ∈ canonicalAttributeNames →
        ((parameter_values part_number).lookup k).isSome = true) ∧
    (∀ (part_number : String) (row : FullDataRow),
        (data_mapping part_number row).map Prod.fst = simpleAttributeNames) ∧
    (∀ (part_number k : String) (row : FullDataRow), k ∈ simpleAttributeNames →
        ((data_mapping part_number row).lookup k).isSome = true) := by
  refine ⟨fun _ => rfl, ?_, fun _ _ => rfl, ?_⟩
  · intro p k hk
    have he : (parameter_values p).map Prod.fst = canonicalAttributeNames := rfl
    have hm : k ∈ (parameter_values p).map Prod.fst := by rw [he]; exact hk
    exact lookup_isSome_of_mem_keys _ k hm
  · intro p k row hk
    have he : (data_mapping p row).map Prod.fst = simpleAttributeNames := rfl
    have hm : k ∈ (data_mapping p row).map Prod.fst := by rw [he]; exact hk
    exact lookup_isSome_of_mem_keys _ k hm

/-- Witness for C4: key presence evaluated at concrete inputs. -/
theorem C4_all_keys_present_witness :
    ("Resistance" ∈ canonicalAttributeNames) ∧
    ((parameter_values "RK73H2B TD 1003 FT").lookup "Resistance").isSome = true ∧
    ("Lead Finish" ∈ simpleAttributeNames) ∧
    ((data_mapping "P" ⟨"P", []⟩).lookup "Lead Finish").isSome = true :=
  ⟨by decide,
   C4_all_keys_present.2.1 "RK73H2B TD 1003 FT" "Resistance" (by decide),
   by decide,
   C4_all_keys_present.2.2.2 "P" "Lead Finish" ⟨"P", []⟩ (by decide)⟩

/-- C5 (counterexample): parsing "RK73H2B" alone yields `size_code = ""`,
not "2B" — the size code is extracted only when the cleaned string is
LONGER than 7 characters (`len(clean_part) > 7`), and "RK73H2B" has exactly
7 — and the missing segments are empty strings, not the "unknown" marker. -/
theorem C5_counterexample :
    (decode_part_number "RK73H2B").size_code = "" ∧
    ((decode_part_number "RK73H2B").size_code == "2B") = false ∧
    ((decode_part_number "RK73H2B").resistance_code == "unknown") = false := by decide

/-- C5 (amended): the decode never raises for any input (it is a total
function by construction); segments beyond the available data are left as
empty strings, not "unknown"; parsing "RK73H2B" alone yields an otherwise
empty record because of the strict `> 7` length guard, while the 8-character
"RK73H2BT" does yield `size_code = "2B"`. -/
theorem C5_tolerant_decode :
    decode_part_number "RK73H2B" = ⟨"RK73H", "", "", "", "", ""⟩ ∧
    (decode_part_number "RK73H2BT").size_code = "2B" ∧
    (∀ s : String,
        (decode_part_number s).tolerance_code = "" ∧
        (decode_part_number s).termination_code = "" ∧
        (decode_part_number s).packaging_code = "") :=
  ⟨by decide, by decide, fun s =>
    ⟨decode_part_number_tolerance_eq s, decode_part_number_termination_eq s,
     decode_part_number_packaging_eq s⟩⟩

/-- C6 (counterexample): the claim says resistance decoding fails with
`InvalidResistanceCode` exactly on codes of bad length or with bad
characters.  The code never fails: resolution is a total dictionary lookup,
and the length-2 code "10" — invalid under the specification's own
criterion — gets the same ordinary fallback value "See datasheet" as the
well-formed unlisted code "103"; no error outcome exists. -/
theorem C6_counterexample :
    invalidResistanceCode_spec "10" = true ∧
    resistanceLookup "10" = "See datasheet" ∧
    invalidResistanceCode_spec "103" = false ∧
    resistanceLookup "103" = resistanceLookup "10" := by decide

/-- C6 (amended): the resistance resolution is total and never signals an
error: every code that is not one of the six sample keys — invalid or not —
resolves to the fallback "See datasheet". -/
theorem C6_total_lookup (code : String)
    (h : code ∉ resistance_codes.map Prod.fst) :
    resistanceLookup code = "See datasheet" := by
  have hnone : resistance_codes.lookup code = none := by
    apply lookup_eq_none_of_keys_ne
    intro p hp e
    exact h (e ▸ List.mem_map_of_mem Prod.fst hp)
  simp [resistanceLookup, hnone]

/-- Witness for C6: the amended theorem applied at the invalid code "10". -/
theorem C6_total_lookup_witness :
    "10" ∉ resistance_codes.map Prod.fst ∧ resistanceLookup "10" = "See datasheet" :=
  ⟨by decide, C6_total_lookup "10" (by decide)⟩

/-- C7 (counterexample): in `simple_part_filler.py` the separator block
between two parts is THREE rows (blank, "--- Next Part ---", blank), not
one: a batch of 2 found parts over a 3-row template produces 9 output rows,
not the 2×3 + (2−1) = 7 rows the claim predicts. -/
theorem C7_counterexample :
    (fill_specifications_from_part_numbers ["P1", "P2"] [⟨"P1", []⟩, ⟨"P2", []⟩]
        [⟨"Resistance", "[Ohm]", ""⟩, ⟨"Tolerance", "[± %]", ""⟩,
         ⟨"Technology", "", ""⟩]).length = 9 ∧
    (((9 : Nat)) == 2 * 3 + (2 - 1)) = false := by decide

/-- C7 (amended): single-part filling always yields exactly as many rows as
the template schema.  The datasheet-generator batch yields N×schemaLength
rows plus (N−1) single separator rows.  The simple filler, however, skips
parts with no exact reference row and inserts a THREE-row separator block
between consecutive found parts: for M found parts it yields
M×schemaLength + 3×(M−1) rows (0 when M = 0). -/
theorem C7_row_counts :
    (∀ (part : String) (tmpl : List TemplateRow),
        (fill_template_with_part_data part tmpl).length = tmpl.length) ∧
    (∀ (p : String) (rest : List String) (tmpl : List TemplateRow),
        (process_multiple_parts (p :: rest) tmpl).length =
          (rest.length + 1) * tmpl.length + rest.length) ∧
    (∀ (parts : List String) (data : List FullDataRow) (tmpl : List TemplateRow),
        (fill_specifications_from_part_numbers parts data tmpl).length =
          if countFound data parts = 0 then 0
          else countFound data parts * tmpl.length +
            3 * (countFound data parts - 1)) := by
  refine ⟨fill_template_with_part_data_length, ?_, ?_⟩
  · intro p rest tmpl
    have haux := processBatchAux_true_length tmpl rest
    simp [process_multiple_parts, processBatchAux, tagRows,
      fill_template_with_part_data, haux]
    ring
  · intro parts data tmpl
    have h := fillSpecsAux_length data tmpl parts false
    simpa [fill_specifications_from_part_numbers] using h

/-- C8 (counterexample): the part number "XYZ123" does not match the RK73H
prefix, yet it is NOT skipped and NOT recorded as a failure: decoding
returns a normal (all-defaults) record without any error signal, and the
batch output contains a full 14-row filled template tagged with "XYZ123" —
the part sits in the successful-results list, and no failures list exists
anywhere in the code. -/
theorem C8_counterexample :
    decode_part_number "XYZ123" = ⟨"RK73H", "", "", "", "", ""⟩ ∧
    (process_multiple_parts ["XYZ123"] default_template).length = 14 ∧
    (process_multiple_parts ["XYZ123"] default_template).all
      (fun r => r.part_number == "XYZ123") = true := by decide

/-- C8 (amended): a part number whose cleaned form does not start with
"RK73H" is still processed: decoding returns the pre-initialized record
(series "RK73H", all other segments empty) with no error, and the part
receives a default-filled template in the batch output.  Only
`simple_part_filler.py` skips parts — those with no exact reference-table
row — and it does so silently (a printed message), leaving them absent from
the output with no failures list, while the batch continues. -/
theorem C8_no_series_rejection :
    (∀ s : String, strStartsWith (cleanPart s) "RK73H" = false →
        decode_part_number s = ⟨"RK73H", "", "", "", "", ""⟩) ∧
    (∀ (data : List FullDataRow) (tmpl : List TemplateRow) (p : String)
        (rest : List String),
        exactRow data p = none →
          fill_specifications_from_part_numbers (p :: rest) data tmpl =
            fill_specifications_from_part_numbers rest data tmpl) := by
  constructor
  · intro s h
    simp [decode_part_number, h]
  · intro data tmpl p rest h
    simp [fill_specifications_from_part_numbers, fillSpecsAux, h]

/-- Witness for C8: the amended theorem applied at "XYZ123" and at a part
with no reference row. -/
theorem C8_no_series_rejection_witness :
    strStartsWith (cleanPart "XYZ123") "RK73H" = false ∧
    decode_part_number "XYZ123" = ⟨"RK73H", "", "", "", "", ""⟩ ∧
    exactRow [] "QQ" = none ∧
    fill_specifications_from_part_numbers ["QQ"] [] [] =
      fill_specifications_from_part_numbers [] [] [] :=
  ⟨by decide, C8_no_series_rejection.1 "XYZ123" (by decide), by decide,
   C8_no_series_rejection.2 [] [] "QQ" [] (by decide)⟩

/-- C9 (confirmed): the `decoded` dictionary is pre-initialized with
`series = 'RK73H'` and no branch of `decode_part_number` ever clears or
validates it against the input, so for EVERY input string — including ones
that do not start with "RK73H" — the returned record has series "RK73H";
the operation is a total function and never signals an error. -/
theorem C9_series_always_rk73h (s : String) :
    (decode_part_number s).series = "RK73H" :=
  decode_part_number_series_eq s

/-- C10 (confirmed): `decode_part_number` strips ALL whitespace from the
input before splitting it on whitespace, so the split yields at most one
token, the `len(parts) >= 4` branch is unreachable, and the returned
`resistance_code` and `tolerance_code` are always the empty string; hence
the resistance lookup in `parameter_values` always resolves to the
dictionary-miss fallback "See datasheet" — for every input, spaced or not. -/
theorem C10_codes_always_empty (s : String) :
    (decode_part_number s).resistance_code = "" ∧
    (decode_part_number s).tolerance_code = "" ∧
    (parameter_values s).lookup "Resistance" = some "See datasheet" := by
  refine ⟨decode_part_number_resistance_eq s, decode_part_number_tolerance_eq s, ?_⟩
  have he : (parameter_values s).lookup "Resistance" =
      some (resistanceLookup (decode_part_number s).resistance_code) := rfl
  rw [he, decode_part_number_resistance_eq s]
  decide
